import Mathlib

/-!
# RustSDF estimation engine: a shallow embedding

This file embeds the estimation engine of the RustSDF repository
(`src/data.rs`, `src/utils.rs`, `src/config.rs`, `src/average.rs`,
`src/estimators/mod.rs`, `src/estimators/kalman.rs`,
`src/estimators/inertial_navigator.rs`) into Lean 4 and proves the
spec's testable properties against it.

Modelling conventions:
* `f64` arithmetic is embedded as exact rational arithmetic (`ℚ`) for the
  claims that speak about exact algebraic identities; a second,
  IEEE-flavoured scalar type `FVal` (finite rational, `+∞`, `-∞`, `NaN`)
  is used for the claims that are precisely about division by zero
  producing infinities or NaN.
* `SystemTime` is a rational number of seconds; `SystemTime::duration_since`
  returns `Option ℚ` (`none` when the argument is later than the receiver,
  mirroring the `Err` case that the source `.unwrap()`s, i.e. a panic).
* Functions whose Rust source can panic return `Option`; `none` is a panic.
* `mpsc` channel fan-out (`Vec::retain(|tx| tx.send(..).is_ok())`) is
  modelled, as the spec itself prescribes, as a pure function of the
  subscriber list and a send-success predicate.
-/

open Matrix

namespace RustSDF

/-! ## Data model (`src/data.rs`), generic in the scalar type -/

/-- `Data` from `src/data.rs`: a 3-axis sample with a timestamp.
The scalar type is a parameter so that both the exact-rational model and
the IEEE-flavoured model share one definition; the timestamp is a rational
number of seconds. -/
structure Data (α : Type) where
  x : α
  y : α
  z : α
  timestamp : ℚ
deriving DecidableEq

/-- `Telemetry` from `src/data.rs`: tagged union of sample kinds. -/
inductive Telemetry (α : Type) where
  | Acceleration (d : Data α)
  | Position (d : Data α)
deriving DecidableEq

/-- `SystemTime::duration_since`: `some (self - earlier)` when
`earlier <= self`, otherwise `none` (the `Err` that the callers unwrap). -/
def duration_since (self earlier : ℚ) : Option ℚ :=
  if earlier ≤ self then some (self - earlier) else none

/-! ## Configuration (`src/config.rs`) and utilities (`src/utils.rs`) -/

/-- `IMU_FREQ` from `src/config.rs` (Hz). -/
def IMU_FREQ : ℕ := 20

/-- `KALMAN_TIMING_TOLERANCE` from `src/config.rs`. -/
def KALMAN_TIMING_TOLERANCE : ℚ := 2 / 100

/-- `KALMAN_ACC_SIGMA` from `src/config.rs`. -/
def KALMAN_ACC_SIGMA : ℚ := 1

/-- `KALMAN_GPS_SIGMA` from `src/config.rs`. -/
def KALMAN_GPS_SIGMA : ℚ := 10

/-- `get_cycle_duration_f64` from `src/utils.rs`: `1.0 / frequency`. -/
def get_cycle_duration_f64 (frequency : ℕ) : ℚ := 1 / (frequency : ℚ)

/-! ## Cadence guard (`src/estimators/kalman.rs`, `telemetry_check`) -/

/-- `max_expected_imu_interval` from `src/estimators/kalman.rs`. -/
def max_expected_imu_interval : ℚ :=
  get_cycle_duration_f64 IMU_FREQ * (1 + KALMAN_TIMING_TOLERANCE)

/-- `min_expected_imu_interval` from `src/estimators/kalman.rs`. -/
def min_expected_imu_interval : ℚ :=
  get_cycle_duration_f64 IMU_FREQ * (1 - KALMAN_TIMING_TOLERANCE)

/-- Observable outcome of one `telemetry_check` evaluation: the returned
`bool`, whether a warning was printed (`eprintln!`), and the value of
`last_imu_data_timestamp` after the call. -/
structure CheckResult where
  accepted : Bool
  warned : Bool
  last_imu_data_timestamp : ℚ
deriving DecidableEq

/-- `telemetry_check` from `src/estimators/kalman.rs` (lines 147-178).
`now` is the `SystemTime::now()` drawn inside the function, `last` the
stored `last_imu_data_timestamp`.  The source computes
`now.duration_since(last).unwrap()`, so a strictly negative elapsed time
panics: that is the `none` result.  For acceleration samples the stored
timestamp is overwritten with `now` before classification; the four
branches mirror the source's `if` chain (late / on-time / too-soon /
time-inversion). Position samples return `true` untouched. -/
def telemetry_check (telemetry : Telemetry ℚ) (now last : ℚ) :
    Option CheckResult :=
  match telemetry with
  | .Acceleration _ =>
    match duration_since now last with
    | none => none
    | some imu_elapsed =>
      if max_expected_imu_interval < imu_elapsed then
        some ⟨true, true, now⟩
      else if min_expected_imu_interval ≤ imu_elapsed then
        some ⟨true, false, now⟩
      else if 0 < imu_elapsed then
        some ⟨false, true, now⟩
      else
        some ⟨false, true, now⟩
  | .Position _ => some ⟨true, false, last⟩

/-! ## State bootstrap (`src/estimators/mod.rs`) -/

/-- `initialize_state_using_gps_data` from `src/estimators/mod.rs`
(lines 10-34), exact-rational model.  The three `&mut` parameters
(`gps_samples_received`, `state`, `prev_gps_data`) are passed and returned
explicitly; `none` is the panic of
`data.timestamp.duration_since(prev_gps_data.timestamp).unwrap()`.
Acceleration samples are ignored; the first position sample is recorded;
the second writes all six state components (`prev_gps_data` is only
assigned in the first-sample branch of the source, so it is returned
unchanged here). -/
def initialize_state_using_gps_data (telemetry : Telemetry ℚ)
    (gps_samples_received : ℕ) (state : Fin 6 → ℚ) (prev_gps_data : Data ℚ) :
    Option (ℕ × (Fin 6 → ℚ) × Data ℚ) :=
  match telemetry with
  | .Acceleration _ => some (gps_samples_received, state, prev_gps_data)
  | .Position data =>
    let n := gps_samples_received + 1
    if n = 1 then
      some (n, state, data)
    else
      match duration_since data.timestamp prev_gps_data.timestamp with
      | none => none
      | some delta_time =>
        some (n,
          ![data.x, data.y, data.z,
            (data.x - prev_gps_data.x) / delta_time,
            (data.y - prev_gps_data.y) / delta_time,
            (data.z - prev_gps_data.z) / delta_time],
          prev_gps_data)

/-! ## IEEE-flavoured scalars

Rational division `q / 0 = 0` does not reflect what `f64` does, so the
claims that are about division by zero use this model of the `f64` values
reachable in the relevant code paths: finite values are exact rationals,
and the special values `+∞`, `-∞`, `NaN` are explicit constructors.  The
zero produced by `Duration::as_secs_f64` is `+0`, which fixes the sign
convention of `finite a / finite 0` below. -/

/-- An `f64` value: a finite rational, an infinity, or NaN. -/
inductive FVal where
  | finite (q : ℚ)
  | inf
  | neginf
  | nan
deriving DecidableEq

namespace FVal

/-- IEEE-style subtraction on `FVal`. -/
def sub : FVal → FVal → FVal
  | finite a, finite b => finite (a - b)
  | finite _, inf => neginf
  | finite _, neginf => inf
  | inf, finite _ => inf
  | neginf, finite _ => neginf
  | inf, neginf => inf
  | neginf, inf => neginf
  | inf, inf => nan
  | neginf, neginf => nan
  | nan, _ => nan
  | _, nan => nan

/-- IEEE-style addition on `FVal`. -/
def add : FVal → FVal → FVal
  | finite a, finite b => finite (a + b)
  | finite _, inf => inf
  | finite _, neginf => neginf
  | inf, finite _ => inf
  | neginf, finite _ => neginf
  | inf, inf => inf
  | neginf, neginf => neginf
  | inf, neginf => nan
  | neginf, inf => nan
  | nan, _ => nan
  | _, nan => nan

/-- IEEE-style division on `FVal`; the finite divisor `0` is `+0`. -/
def div : FVal → FVal → FVal
  | finite a, finite b =>
    if b = 0 then
      if a = 0 then nan else if 0 < a then inf else neginf
    else finite (a / b)
  | finite _, inf => finite 0
  | finite _, neginf => finite 0
  | inf, finite b => if 0 ≤ b then inf else neginf
  | neginf, finite b => if 0 ≤ b then neginf else inf
  | inf, inf => nan
  | inf, neginf => nan
  | neginf, inf => nan
  | neginf, neginf => nan
  | nan, _ => nan
  | _, nan => nan

end FVal

/-- `initialize_state_using_gps_data`, IEEE-flavoured model: the same
source function as `initialize_state_using_gps_data` above, with the six
`f64` sample components and state entries carried as `FVal` so that the
division by a zero `delta_time` (equal timestamps) behaves as `f64`
division does instead of being the rationals' `q / 0 = 0`. -/
def initialize_state_using_gps_data_fp (telemetry : Telemetry FVal)
    (gps_samples_received : ℕ) (state : Fin 6 → FVal)
    (prev_gps_data : Data FVal) :
    Option (ℕ × (Fin 6 → FVal) × Data FVal) :=
  match telemetry with
  | .Acceleration _ => some (gps_samples_received, state, prev_gps_data)
  | .Position data =>
    let n := gps_samples_received + 1
    if n = 1 then
      some (n, state, data)
    else
      match duration_since data.timestamp prev_gps_data.timestamp with
      | none => none
      | some delta_time =>
        some (n,
          ![data.x, data.y, data.z,
            FVal.div (FVal.sub data.x prev_gps_data.x) (.finite delta_time),
            FVal.div (FVal.sub data.y prev_gps_data.y) (.finite delta_time),
            FVal.div (FVal.sub data.z prev_gps_data.z) (.finite delta_time)],
          prev_gps_data)

/-! ## Fan-out (`Vec::retain(|tx| tx.send(..).is_ok())`)

Every estimator emits with
`tx.retain(|tx| tx.send(estimate).is_ok())` followed by
`if tx.is_empty() { break; }`.  Following the spec's own design note, the
send attempt is modelled as a pure predicate `ok : S → Bool` (whether the
subscriber's receiver is still alive for this emission); `retain` keeps,
in order, exactly the subscribers whose send succeeded. -/

/-- One fan-out emission: attempt a send to every subscriber and retain
only those whose send succeeded (`Vec::retain` preserves order). -/
def retain_live {S : Type} (tx : List S) (ok : S → Bool) : List S :=
  tx.filter ok

/-! ## Moving-average estimator (`src/average.rs`) -/

namespace Average

/-- `Average::handle_data_buffer` from `src/average.rs` (lines 37-44):
push to the back, first evicting the front element when the window
already holds 10 elements.  The `VecDeque` is a list whose head is the
front; the element type is a parameter because the same window logic is
analysed both over exact and over IEEE-flavoured samples. -/
def handle_data_buffer {α : Type} (buffer : List α) (new_data : α) :
    List α :=
  if buffer.length < 10 then
    buffer ++ [new_data]
  else
    buffer.tail ++ [new_data]

/-- `Average::calculate_average` from `src/average.rs` (lines 46-65),
exact-rational model: accumulate the component sums over the window and
divide each by the element count; the emitted timestamp is
`SystemTime::now()`, passed in as `now`. -/
def calculate_average (buffer : List (Data ℚ)) (now : ℚ) : Data ℚ :=
  let count := buffer.length
  let sum_x := buffer.foldl (fun acc elem => acc + elem.x) 0
  let sum_y := buffer.foldl (fun acc elem => acc + elem.y) 0
  let sum_z := buffer.foldl (fun acc elem => acc + elem.z) 0
  { x := sum_x / (count : ℚ)
    y := sum_y / (count : ℚ)
    z := sum_z / (count : ℚ)
    timestamp := now }

/-- `Average::calculate_average`, IEEE-flavoured model of the same source
function: the sums start from `0.0` and the division by `count as f64`
follows `f64` semantics, so an empty window yields `0.0 / 0.0 = NaN`. -/
def calculate_average_fp (buffer : List (Data FVal)) (now : ℚ) :
    Data FVal :=
  let count := buffer.length
  let sum_x := buffer.foldl (fun acc elem => FVal.add acc elem.x) (.finite 0)
  let sum_y := buffer.foldl (fun acc elem => FVal.add acc elem.y) (.finite 0)
  let sum_z := buffer.foldl (fun acc elem => FVal.add acc elem.z) (.finite 0)
  { x := FVal.div sum_x (.finite (count : ℚ))
    y := FVal.div sum_y (.finite (count : ℚ))
    z := FVal.div sum_z (.finite (count : ℚ))
    timestamp := now }

/-- The `Average::run` loop body (`src/average.rs`, lines 22-32) over a
finite input trace.  Each input carries the received telemetry, the
`SystemTime::now()` of the emission, and the send-success predicate for
this emission.  A `Position` sample updates the window, computes the
average and fans it out; any sample is followed by the
`if tx.is_empty() { break; }` check.  (The external `shutdown` flag is
not modelled: the claims under study do not concern it.) -/
def run_loop {S : Type} (buffer : List (Data ℚ)) (tx : List S)
    (inputs : List (Telemetry ℚ × ℚ × (S → Bool))) :
    List (Data ℚ) × List S :=
  match inputs with
  | [] => (buffer, tx)
  | (telemetry, now, ok) :: rest =>
    match telemetry with
    | .Position new_data =>
      let buffer' := handle_data_buffer buffer new_data
      let _avg_data := calculate_average buffer' now
      let tx' := retain_live tx ok
      if tx'.isEmpty then (buffer', tx') else run_loop buffer' tx' rest
    | .Acceleration _ =>
      if tx.isEmpty then (buffer, tx) else run_loop buffer tx rest

end Average

/-! ## Kalman filter (`src/estimators/kalman.rs`) -/

/-- `create_matrix_A` from `src/estimators/kalman.rs` (lines 180-189):
the 6×6 state-transition matrix, identity with `dt` coupling each
position to its velocity. -/
def create_matrix_A (dt : ℚ) : Matrix (Fin 6) (Fin 6) ℚ :=
  !![1, 0, 0, dt, 0, 0;
     0, 1, 0, 0, dt, 0;
     0, 0, 1, 0, 0, dt;
     0, 0, 0, 1, 0, 0;
     0, 0, 0, 0, 1, 0;
     0, 0, 0, 0, 0, 1]

/-- `create_matrix_B` from `src/estimators/kalman.rs` (lines 191-200):
the 6×3 control matrix (`dt²/2` on positions, `dt` on velocities). -/
def create_matrix_B (dt : ℚ) : Matrix (Fin 6) (Fin 3) ℚ :=
  !![dt * dt * (1 / 2), 0, 0;
     0, dt * dt * (1 / 2), 0;
     0, 0, dt * dt * (1 / 2);
     dt, 0, 0;
     0, dt, 0;
     0, 0, dt]

/-- `create_matrix_H` from `src/estimators/kalman.rs` (lines 202-208):
the 3×6 observation matrix selecting the position components. -/
def create_matrix_H : Matrix (Fin 3) (Fin 6) ℚ :=
  !![1, 0, 0, 0, 0, 0;
     0, 1, 0, 0, 0, 0;
     0, 0, 1, 0, 0, 0]

/-- `create_matrix_Q` from `src/estimators/kalman.rs` (lines 210-220):
process noise from `dt` and the acceleration sigma (`Q * sigma_acc`). -/
def create_matrix_Q (dt sigma_acc : ℚ) : Matrix (Fin 6) (Fin 6) ℚ :=
  sigma_acc •
  !![dt ^ 4 / 4, 0, 0, dt ^ 3 / 2, 0, 0;
     0, dt ^ 4 / 4, 0, 0, dt ^ 3 / 2, 0;
     0, 0, dt ^ 4 / 4, 0, 0, dt ^ 3 / 2;
     dt ^ 3 / 2, 0, 0, dt ^ 2, 0, 0;
     0, dt ^ 3 / 2, 0, 0, dt ^ 2, 0;
     0, 0, dt ^ 3 / 2, 0, 0, dt ^ 2]

/-- `create_matrix_R` from `src/estimators/kalman.rs` (lines 222-225):
measurement noise, `identity * sigma_gps`. -/
def create_matrix_R (sigma_gps : ℚ) : Matrix (Fin 3) (Fin 3) ℚ :=
  sigma_gps • (1 : Matrix (Fin 3) (Fin 3) ℚ)

/-- The explicit 3×3 determinant, as `nalgebra`'s dimension-3
`try_inverse` computes it (cofactor expansion along the first row). -/
def det3 (m : Matrix (Fin 3) (Fin 3) ℚ) : ℚ :=
  m 0 0 * (m 1 1 * m 2 2 - m 1 2 * m 2 1)
    - m 0 1 * (m 1 0 * m 2 2 - m 1 2 * m 2 0)
    + m 0 2 * (m 1 0 * m 2 1 - m 1 1 * m 2 0)

/-- `Matrix3::try_inverse`: `none` for a singular matrix, otherwise the
adjugate divided by the determinant (nalgebra's direct 3×3 formula). -/
def try_inverse (m : Matrix (Fin 3) (Fin 3) ℚ) :
    Option (Matrix (Fin 3) (Fin 3) ℚ) :=
  if det3 m = 0 then none
  else some ((det3 m)⁻¹ •
    !![m 1 1 * m 2 2 - m 1 2 * m 2 1,
       m 0 2 * m 2 1 - m 0 1 * m 2 2,
       m 0 1 * m 1 2 - m 0 2 * m 1 1;
       m 1 2 * m 2 0 - m 1 0 * m 2 2,
       m 0 0 * m 2 2 - m 0 2 * m 2 0,
       m 0 2 * m 1 0 - m 0 0 * m 1 2;
       m 1 0 * m 2 1 - m 1 1 * m 2 0,
       m 0 1 * m 2 0 - m 0 0 * m 2 1,
       m 0 0 * m 1 1 - m 0 1 * m 1 0])

/-- `KalmanData` from `src/estimators/kalman.rs`: state mean and
covariance. -/
structure KalmanData where
  x : Fin 6 → ℚ
  P : Matrix (Fin 6) (Fin 6) ℚ

/-- The immutable matrices of `KalmanFilter` (`src/estimators/kalman.rs`,
lines 36-44); the `tx` sender list is modelled separately by
`retain_live`. -/
structure KalmanFilter where
  A : Matrix (Fin 6) (Fin 6) ℚ
  B : Matrix (Fin 6) (Fin 3) ℚ
  H : Matrix (Fin 3) (Fin 6) ℚ
  Q : Matrix (Fin 6) (Fin 6) ℚ
  R : Matrix (Fin 3) (Fin 3) ℚ

/-- `KalmanFilter::new` (`src/estimators/kalman.rs`, lines 48-59): all
matrices built from the nominal IMU period and the configured sigmas. -/
def KalmanFilter.new : KalmanFilter :=
  { A := create_matrix_A (get_cycle_duration_f64 IMU_FREQ)
    B := create_matrix_B (get_cycle_duration_f64 IMU_FREQ)
    H := create_matrix_H
    Q := create_matrix_Q (get_cycle_duration_f64 IMU_FREQ) KALMAN_ACC_SIGMA
    R := create_matrix_R KALMAN_GPS_SIGMA }

/-- The prediction branch of `KalmanFilter::run`
(`src/estimators/kalman.rs`, lines 97-106):
`x ← A·x + B·u`, `P ← A·P·Aᵀ + Q`. -/
def kalman_predict (k : KalmanFilter) (s : KalmanData) (u : Fin 3 → ℚ) :
    KalmanData :=
  { x := k.A *ᵥ s.x + k.B *ᵥ u
    P := k.A * s.P * k.A.transpose + k.Q }

/-- The correction branch of `KalmanFilter::run`
(`src/estimators/kalman.rs`, lines 107-117):
`K = P·Hᵀ·(H·P·Hᵀ + R)⁻¹`, `x ← x + K·(z − H·x)`, `P ← (I − K·H)·P`;
`none` is the panic of `.try_inverse().unwrap()`. -/
def kalman_correct (k : KalmanFilter) (s : KalmanData) (z : Fin 3 → ℚ) :
    Option KalmanData :=
  match try_inverse (k.H * s.P * k.H.transpose + k.R) with
  | none => none
  | some Sinv =>
    let K := s.P * k.H.transpose * Sinv
    some { x := s.x + K *ᵥ (z - k.H *ᵥ s.x)
           P := ((1 : Matrix (Fin 6) (Fin 6) ℚ) - K * k.H) * s.P }

/-! ## Inertial navigator (`src/estimators/inertial_navigator.rs`) -/

/-- `InertialNavigator` (`src/estimators/inertial_navigator.rs`, lines
19-24): the matrices and the 6-dimensional state mean; the `tx` sender
list is modelled separately. -/
structure InertialNavigator where
  A : Matrix (Fin 6) (Fin 6) ℚ
  B : Matrix (Fin 6) (Fin 3) ℚ
  state : Fin 6 → ℚ

/-- One iteration of the post-bootstrap loop of `InertialNavigator::run`
(`src/estimators/inertial_navigator.rs`, lines 63-85): an acceleration
sample updates `state ← A·state + B·u`, a position sample leaves the
state alone; then — in both cases — the estimate built from the first
three state components and `SystemTime::now()` (`now`) is fanned out to
the subscribers, and the loop breaks when no live subscriber remains.
Result: new navigator, the emitted estimate, the retained subscriber
list, and the break flag. -/
def InertialNavigator.process {S : Type} (nav : InertialNavigator)
    (tx : List S) (ok : S → Bool) (telemetry : Telemetry ℚ) (now : ℚ) :
    InertialNavigator × Data ℚ × List S × Bool :=
  let nav' :=
    match telemetry with
    | .Acceleration data =>
      let u : Fin 3 → ℚ := ![data.x, data.y, data.z]
      { nav with state := nav.A *ᵥ nav.state + nav.B *ᵥ u }
    | .Position _ => nav
  let estimate : Data ℚ :=
    { x := nav'.state 0, y := nav'.state 1, z := nav'.state 2,
      timestamp := now }
  let tx' := retain_live tx ok
  (nav', estimate, tx', tx'.isEmpty)

/-! ## Theorems: cadence guard -/

/-- Helper: for an acceleration sample with `last ≤ now`, the guard
reduces to the four-way classification of the elapsed time. -/
theorem telemetry_check_acc_eq (d : Data ℚ) (now last : ℚ)
    (h : last ≤ now) :
    telemetry_check (.Acceleration d) now last =
      some (if max_expected_imu_interval < now - last then ⟨true, true, now⟩
        else if min_expected_imu_interval ≤ now - last then ⟨true, false, now⟩
        else ⟨false, true, now⟩) := by
  simp only [telemetry_check, duration_since, if_pos h]
  split
  · rfl
  · split
    · rfl
    · split <;> rfl

/-- Claim C2, counterexample: with the stored timestamp `1` and the
current time `0` (elapsed = −1 ≤ 0), the guard does not reject the
sample — `now.duration_since(last).unwrap()` panics (`none`), so no
classification (in particular no rejection, `some ⟨false, ..⟩`) is
produced, contrary to the claim's time-inversion case. -/
theorem telemetry_check_neg_elapsed_not_rejected :
    telemetry_check (.Acceleration ⟨0, 0, 0, 0⟩) 0 1 = none := by
  decide

/-- Claim C2 (amended): for every acceleration sample evaluated after
bootstrap, with `elapsed = now − last`: if `elapsed > nominal·(1+tol)`
the sample is late and accepted with a warning; if
`nominal·(1−tol) ≤ elapsed ≤ nominal·(1+tol)` it is on-time and accepted
silently; if `0 < elapsed < nominal·(1−tol)` it is too-soon and rejected
with a warning; if `elapsed = 0` it is a time inversion and rejected
with a warning; and if `elapsed < 0` the evaluation panics
(`duration_since(..).unwrap()`) instead of rejecting. -/
theorem telemetry_check_classification (d : Data ℚ) (now last : ℚ) :
    (max_expected_imu_interval < now - last →
      telemetry_check (.Acceleration d) now last = some ⟨true, true, now⟩) ∧
    (min_expected_imu_interval ≤ now - last →
      now - last ≤ max_expected_imu_interval →
      telemetry_check (.Acceleration d) now last = some ⟨true, false, now⟩) ∧
    (0 < now - last → now - last < min_expected_imu_interval →
      telemetry_check (.Acceleration d) now last = some ⟨false, true, now⟩) ∧
    (now - last = 0 →
      telemetry_check (.Acceleration d) now last = some ⟨false, true, now⟩) ∧
    (now - last < 0 →
      telemetry_check (.Acceleration d) now last = none) := by
  have hmax : (0 : ℚ) < max_expected_imu_interval := by
    norm_num [max_expected_imu_interval, get_cycle_duration_f64, IMU_FREQ,
      KALMAN_TIMING_TOLERANCE]
  have hmin : (0 : ℚ) < min_expected_imu_interval := by
    norm_num [min_expected_imu_interval, get_cycle_duration_f64, IMU_FREQ,
      KALMAN_TIMING_TOLERANCE]
  have hmm : min_expected_imu_interval ≤ max_expected_imu_interval := by
    norm_num [min_expected_imu_interval, max_expected_imu_interval,
      get_cycle_duration_f64, IMU_FREQ, KALMAN_TIMING_TOLERANCE]
  refine ⟨fun h => ?_, fun h1 h2 => ?_, fun h1 h2 => ?_, fun h => ?_,
    fun h => ?_⟩
  · rw [telemetry_check_acc_eq d now last (by linarith), if_pos h]
  · rw [telemetry_check_acc_eq d now last (by linarith),
      if_neg (by linarith), if_pos h1]
  · rw [telemetry_check_acc_eq d now last (by linarith),
      if_neg (by linarith), if_neg (by linarith)]
  · rw [telemetry_check_acc_eq d now last (by linarith),
      if_neg (by linarith), if_neg (by linarith)]
  · simp only [telemetry_check, duration_since, if_neg (by linarith : ¬ last ≤ now)]

/-- Claim C2 (amended), witness: elapsed exactly the nominal period
(= 1/20 s) is on-time, accepted silently, and the stored timestamp is
advanced. -/
theorem telemetry_check_classification_witness :
    telemetry_check (.Acceleration ⟨0, 0, 0, 0⟩) (1 / 20) 0 =
      some ⟨true, false, 1 / 20⟩ :=
  (telemetry_check_classification ⟨0, 0, 0, 0⟩ (1 / 20) 0).2.1
    (by norm_num [min_expected_imu_interval, get_cycle_duration_f64, IMU_FREQ,
      KALMAN_TIMING_TOLERANCE])
    (by norm_num [max_expected_imu_interval, get_cycle_duration_f64, IMU_FREQ,
      KALMAN_TIMING_TOLERANCE])

/-- Claim C7, counterexample: with the stored timestamp `2` and the
current time `0` (elapsed = −2 < 0), the guard evaluation panics: the
source computes `now.duration_since(last).unwrap()` and `duration_since`
returns `Err` when the clock went backwards, so the evaluation is not
total and produces no rejection/warning. -/
theorem telemetry_check_backward_clock_panics :
    telemetry_check (.Acceleration ⟨1, 1, 1, 0⟩) 0 2 = none := by
  decide

/-- Claim C7 (amended): an acceleration sample whose elapsed time is
exactly zero is rejected with a warning and without panicking; the
evaluation is total (returns a classification) whenever `last ≤ now`;
but for a strictly negative elapsed time (current evaluation time before
the stored timestamp) the evaluation panics on
`duration_since(..).unwrap()`. -/
theorem telemetry_check_time_inversion (d : Data ℚ) (now last : ℚ) :
    (now = last →
      telemetry_check (.Acceleration d) now last = some ⟨false, true, now⟩) ∧
    (last ≤ now →
      ∃ r, telemetry_check (.Acceleration d) now last = some r) ∧
    (now < last →
      telemetry_check (.Acceleration d) now last = none) := by
  refine ⟨fun h => ?_, fun h => ?_, fun h => ?_⟩
  · subst h
    rw [telemetry_check_acc_eq d now now (le_refl now)]
    norm_num [sub_self, max_expected_imu_interval, min_expected_imu_interval,
      get_cycle_duration_f64, IMU_FREQ, KALMAN_TIMING_TOLERANCE]
  · exact ⟨_, telemetry_check_acc_eq d now last h⟩
  · simp only [telemetry_check, duration_since, if_neg (not_le.mpr h)]

/-- Claim C7 (amended), witness: equal timestamps (elapsed = 0) are
rejected with a warning, not a panic. -/
theorem telemetry_check_time_inversion_witness :
    telemetry_check (.Acceleration ⟨1, 1, 1, 0⟩) 5 5 =
      some ⟨false, true, 5⟩ :=
  (telemetry_check_time_inversion ⟨1, 1, 1, 0⟩ 5 5).1 rfl

/-- Claim C8: whenever an acceleration sample's guard evaluation returns
a classification, the stored `last_imu_data_timestamp` has been set to
the evaluation time, whether the sample was accepted or rejected; a
position sample is always accepted, silently, with the stored timestamp
unchanged. -/
theorem telemetry_check_frame (d : Data ℚ) (now last : ℚ) :
    (∀ r : CheckResult, telemetry_check (.Acceleration d) now last = some r →
      r.last_imu_data_timestamp = now) ∧
    telemetry_check (.Position d) now last = some ⟨true, false, last⟩ := by
  constructor
  · intro r hr
    by_cases h : last ≤ now
    · rw [telemetry_check_acc_eq d now last h, Option.some.injEq] at hr
      subst hr
      split
      · rfl
      · split <;> rfl
    · simp only [telemetry_check, duration_since, if_neg h] at hr
      exact Option.noConfusion hr
  · rfl

/-- Claim C8, witness: a late acceleration sample (elapsed = 1 s ≫
nominal) is accepted with a warning and the stored timestamp becomes the
evaluation time; a position sample leaves the stored timestamp `0`
untouched. -/
theorem telemetry_check_frame_witness :
    (⟨true, true, (1 : ℚ)⟩ : CheckResult).last_imu_data_timestamp = 1 ∧
    telemetry_check (.Position ⟨2, 2, 2, 0⟩) 1 0 = some ⟨true, false, 0⟩ := by
  have hacc : telemetry_check (.Acceleration ⟨2, 2, 2, 0⟩) 1 0 =
      some ⟨true, true, 1⟩ := by
    rw [telemetry_check_acc_eq ⟨2, 2, 2, 0⟩ 1 0 (by norm_num),
      if_pos (show max_expected_imu_interval < 1 - 0 by
        norm_num [max_expected_imu_interval, get_cycle_duration_f64, IMU_FREQ,
          KALMAN_TIMING_TOLERANCE])]
  exact ⟨(telemetry_check_frame ⟨2, 2, 2, 0⟩ 1 0).1 ⟨true, true, 1⟩ hacc,
    (telemetry_check_frame ⟨2, 2, 2, 0⟩ 1 0).2⟩

/-! ## Theorems: state bootstrap -/

/-- Claim C3: for position samples with strictly increasing timestamps,
the first bootstrap step only records the sample, and the second writes a
state whose position components are the second measurement's and whose
velocity components are the componentwise difference divided by the
measured timestamp difference. -/
theorem bootstrap_finite_difference (d1 d2 : Data ℚ) (state0 : Fin 6 → ℚ)
    (prev0 : Data ℚ) (h : d1.timestamp < d2.timestamp) :
    initialize_state_using_gps_data (.Position d1) 0 state0 prev0 =
      some (1, state0, d1) ∧
    initialize_state_using_gps_data (.Position d2) 1 state0 d1 =
      some (2,
        ![d2.x, d2.y, d2.z,
          (d2.x - d1.x) / (d2.timestamp - d1.timestamp),
          (d2.y - d1.y) / (d2.timestamp - d1.timestamp),
          (d2.z - d1.z) / (d2.timestamp - d1.timestamp)],
        d1) := by
  constructor
  · simp [initialize_state_using_gps_data]
  · simp [initialize_state_using_gps_data, duration_since, le_of_lt h]

/-- Claim C3, witness: two samples one second apart, at the origin and at
`(1,1,1)`, bootstrap to the state `(1,1,1,1,1,1)`. -/
theorem bootstrap_finite_difference_witness :
    initialize_state_using_gps_data (.Position ⟨1, 1, 1, 1⟩) 1
        (fun _ => 0) ⟨0, 0, 0, 0⟩ =
      some (2, ![1, 1, 1, 1, 1, 1], ⟨0, 0, 0, 0⟩) := by
  have h := (bootstrap_finite_difference ⟨0, 0, 0, 0⟩ ⟨1, 1, 1, 1⟩
    (fun _ => 0) ⟨0, 0, 0, 0⟩ (by norm_num)).2
  rw [h]
  norm_num

/-- Claim C4, code evaluation at the failing input: two position samples
with equal timestamps do not make the bootstrap fail — it divides the
position difference by a zero `delta_time` and stores `+∞` into every
velocity component of the state (IEEE-flavoured model of the `f64`
arithmetic). -/
theorem bootstrap_equal_timestamps_stores_inf :
    initialize_state_using_gps_data_fp
        (.Position ⟨.finite 1, .finite 1, .finite 1, 5⟩) 1 (fun _ => .finite 0)
        ⟨.finite 0, .finite 0, .finite 0, 5⟩ =
      some (2,
        ![.finite 1, .finite 1, .finite 1, .inf, .inf, .inf],
        ⟨.finite 0, .finite 0, .finite 0, 5⟩) := by
  simp [initialize_state_using_gps_data_fp, duration_since, FVal.sub, FVal.div]

/-! ## Theorems: moving-average estimator -/

/-- Helper: the source's accumulation loop computes the sum of a
component over the window. -/
theorem foldl_add_eq_sum {α : Type} (f : α → ℚ) (l : List α) (c : ℚ) :
    l.foldl (fun acc elem => acc + f elem) c = c + (l.map f).sum := by
  induction l generalizing c with
  | nil => simp
  | cons a t ih => simp [ih, add_assoc]

/-- Claim C5: the window update is FIFO — append while below the
capacity of 10, evict the front first when at (or beyond) capacity —
and on a non-empty window the emitted sample's components are the exact
arithmetic means (component sum divided by the element count) and its
timestamp is the current time, not a window timestamp. -/
theorem average_window_spec (b : List (Data ℚ)) (new : Data ℚ) (now : ℚ) :
    (b.length < 10 → Average.handle_data_buffer b new = b ++ [new]) ∧
    (¬ b.length < 10 → Average.handle_data_buffer b new = b.tail ++ [new]) ∧
    (b ≠ [] →
      (Average.calculate_average b now).x =
        (b.map Data.x).sum / (b.length : ℚ) ∧
      (Average.calculate_average b now).y =
        (b.map Data.y).sum / (b.length : ℚ) ∧
      (Average.calculate_average b now).z =
        (b.map Data.z).sum / (b.length : ℚ) ∧
      (Average.calculate_average b now).timestamp = now) := by
  refine ⟨fun h => ?_, fun h => ?_, fun _ => ?_⟩
  · simp [Average.handle_data_buffer, h]
  · simp [Average.handle_data_buffer, h]
  · refine ⟨?_, ?_, ?_, rfl⟩ <;>
      simp [Average.calculate_average, foldl_add_eq_sum]

/-- Claim C5, witness: the spec's three-sample window has mean
`(2813/30, 3239/15, 5141/15)` ≈ (93.77, 215.93, 342.73), the window
below capacity appends, and the emitted timestamp is the current time. -/
theorem average_window_spec_witness :
    (Average.calculate_average
        [⟨2.2, 4.5, 7.8, 0⟩, ⟨44.6, 88.2, 987.1, 1⟩, ⟨234.5, 555.1, 33.3, 2⟩]
        9).x = 2813 / 30 ∧
    (Average.calculate_average
        [⟨2.2, 4.5, 7.8, 0⟩, ⟨44.6, 88.2, 987.1, 1⟩, ⟨234.5, 555.1, 33.3, 2⟩]
        9).y = 3239 / 15 ∧
    (Average.calculate_average
        [⟨2.2, 4.5, 7.8, 0⟩, ⟨44.6, 88.2, 987.1, 1⟩, ⟨234.5, 555.1, 33.3, 2⟩]
        9).z = 5141 / 15 ∧
    (Average.calculate_average
        [⟨2.2, 4.5, 7.8, 0⟩, ⟨44.6, 88.2, 987.1, 1⟩, ⟨234.5, 555.1, 33.3, 2⟩]
        9).timestamp = 9 ∧
    Average.handle_data_buffer
        ([⟨2.2, 4.5, 7.8, 0⟩, ⟨44.6, 88.2, 987.1, 1⟩] : List (Data ℚ))
        ⟨234.5, 555.1, 33.3, 2⟩ =
      [⟨2.2, 4.5, 7.8, 0⟩, ⟨44.6, 88.2, 987.1, 1⟩, ⟨234.5, 555.1, 33.3, 2⟩] := by
  obtain ⟨hx, hy, hz, ht⟩ :=
    (average_window_spec
      ([⟨2.2, 4.5, 7.8, 0⟩, ⟨44.6, 88.2, 987.1, 1⟩, ⟨234.5, 555.1, 33.3, 2⟩] :
        List (Data ℚ))
      ⟨0, 0, 0, 0⟩ 9).2.2 (by simp)
  have happ :=
    (average_window_spec
      ([⟨2.2, 4.5, 7.8, 0⟩, ⟨44.6, 88.2, 987.1, 1⟩] : List (Data ℚ))
      ⟨234.5, 555.1, 33.3, 2⟩ 9).1 (by simp)
  refine ⟨?_, ?_, ?_, ht, happ⟩
  · rw [hx]; norm_num
  · rw [hy]; norm_num
  · rw [hz]; norm_num

/-- Claim C10: applied to an empty window, the mean computation divides
the zero sums by a zero count and yields NaN on every axis; inside the
estimator loop this cannot happen, because the window update always
appends the new sample — its result is never empty and never exceeds the
capacity of 10 — and it runs before the mean is computed
(`Average.run_loop` calls `calculate_average` only on
`handle_data_buffer buffer new_data`). -/
theorem average_empty_window_nan (b : List (Data FVal)) (new : Data FVal)
    (now : ℚ) :
    (Average.calculate_average_fp [] now).x = FVal.nan ∧
    (Average.calculate_average_fp [] now).y = FVal.nan ∧
    (Average.calculate_average_fp [] now).z = FVal.nan ∧
    Average.handle_data_buffer b new ≠ [] ∧
    (b.length ≤ 10 → (Average.handle_data_buffer b new).length ≤ 10) := by
  refine ⟨rfl, rfl, rfl, ?_, fun h => ?_⟩
  · unfold Average.handle_data_buffer
    split <;> simp
  · unfold Average.handle_data_buffer
    split <;> simp <;> omega

/-- Claim C10, witness: a window of ten samples is at capacity; updating
it keeps it non-empty and within capacity. -/
theorem average_empty_window_nan_witness :
    (Average.calculate_average_fp ([] : List (Data FVal)) 3).x = FVal.nan ∧
    Average.handle_data_buffer
        (List.replicate 10 (⟨.finite 1, .finite 1, .finite 1, 0⟩ : Data FVal))
        ⟨.finite 2, .finite 2, .finite 2, 1⟩ ≠ [] ∧
    (Average.handle_data_buffer
        (List.replicate 10 (⟨.finite 1, .finite 1, .finite 1, 0⟩ : Data FVal))
        ⟨.finite 2, .finite 2, .finite 2, 1⟩).length ≤ 10 := by
  obtain ⟨hx, _, _, hne, hlen⟩ :=
    average_empty_window_nan
      (List.replicate 10 (⟨.finite 1, .finite 1, .finite 1, 0⟩ : Data FVal))
      ⟨.finite 2, .finite 2, .finite 2, 1⟩ 3
  exact ⟨hx, hne, hlen (by simp)⟩

/-! ## Theorems: inertial navigator -/

/-- Claim C6, counterexample: a position sample received after bootstrap
leaves the state unchanged, but an estimate IS emitted — with one live
subscriber, the loop body fans the (unchanged) estimate out to it, the
send succeeds (the subscriber is retained), and the loop continues; the
claim's "no estimate is emitted to any subscriber" is false. -/
theorem inertial_position_sample_emits :
    InertialNavigator.process
        ⟨create_matrix_A (get_cycle_duration_f64 IMU_FREQ),
         create_matrix_B (get_cycle_duration_f64 IMU_FREQ),
         ![1, 2, 3, 4, 5, 6]⟩
        [()] (fun _ => true) (.Position ⟨9, 9, 9, 7⟩) 8 =
      (⟨create_matrix_A (get_cycle_duration_f64 IMU_FREQ),
        create_matrix_B (get_cycle_duration_f64 IMU_FREQ),
        ![1, 2, 3, 4, 5, 6]⟩,
       ⟨1, 2, 3, 8⟩, [()], false) := by
  rfl

/-- Claim C6 (amended): a position sample received by the inertial
estimator after bootstrap leaves the state completely unchanged, but the
loop body still builds an estimate from the (unchanged) first three
state components and emits it to every live subscriber; an acceleration
sample updates the state by `x ← A·x + B·u` before the emission. -/
theorem inertial_step_spec {S : Type} (nav : InertialNavigator)
    (tx : List S) (ok : S → Bool) (d : Data ℚ) (now : ℚ) :
    InertialNavigator.process nav tx ok (.Position d) now =
      (nav, ⟨nav.state 0, nav.state 1, nav.state 2, now⟩,
        retain_live tx ok, (retain_live tx ok).isEmpty) ∧
    (InertialNavigator.process nav tx ok (.Acceleration d) now).1.state =
      nav.A *ᵥ nav.state + nav.B *ᵥ ![d.x, d.y, d.z] := by
  exact ⟨rfl, rfl⟩

/-! ## Theorems: fan-out and shutdown -/

/-- Claim C9: after an emission the live subscriber list is exactly the
order-preserving subsequence of the prior subscribers whose send
succeeded (membership is prior membership plus send success, and the
result is a sublist of the prior list, so failed subscribers are removed
permanently with no retry); and when the retained list is empty the
estimator loop stops after the current sample: the loop's result on
`input :: rest` ignores `rest` entirely. -/
theorem fanout_prune {S : Type} (tx : List S) (ok : S → Bool)
    (buffer : List (Data ℚ)) (d : Data ℚ) (now : ℚ)
    (rest : List (Telemetry ℚ × ℚ × (S → Bool))) :
    retain_live tx ok = tx.filter ok ∧
    (retain_live tx ok).Sublist tx ∧
    (∀ s, s ∈ retain_live tx ok ↔ s ∈ tx ∧ ok s = true) ∧
    (retain_live tx ok = [] →
      Average.run_loop buffer tx ((Telemetry.Position d, now, ok) :: rest) =
        (Average.handle_data_buffer buffer d, [])) := by
  refine ⟨rfl, List.filter_sublist tx, fun s => List.mem_filter, fun h => ?_⟩
  simp only [Average.run_loop, h, List.isEmpty_nil, if_true]

/-- Claim C9, witness: one subscriber whose receiver is gone — the
emission prunes it, the live set becomes empty, and the loop terminates
after the current sample, never reaching the rest of the input. -/
theorem fanout_prune_witness :
    retain_live [0] (fun _ : ℕ => false) = [] ∧
    Average.run_loop [] [0]
        [(Telemetry.Position ⟨1, 1, 1, 0⟩, 0, fun _ : ℕ => false),
         (Telemetry.Position ⟨2, 2, 2, 1⟩, 1, fun _ : ℕ => true)] =
      ([⟨1, 1, 1, 0⟩], []) := by
  have h := fanout_prune [0] (fun _ : ℕ => false) [] ⟨1, 1, 1, 0⟩ 0
    [(Telemetry.Position ⟨2, 2, 2, 1⟩, 1, fun _ : ℕ => true)]
  exact ⟨h.1, h.2.2.2 rfl⟩

/-! ## Theorems: Kalman round-trip -/

/-- Claim C1: from any bootstrapped state, an accepted acceleration
sample of zero magnitude (`u = 0`) predicts `x ← A·x + B·0`, so each
position component advances by its velocity times the nominal IMU period
baked into `A` and each velocity component is unchanged; a subsequent
position correction whose measurement is the predicted position `H·x`
has zero innovation and (whenever the 3×3 inversion succeeds, which the
hypothesis states as a nonzero determinant) leaves the state mean
unchanged. -/
theorem kalman_round_trip (x0 : Fin 6 → ℚ) (P0 : Matrix (Fin 6) (Fin 6) ℚ)
    (h : det3 (KalmanFilter.new.H *
        (kalman_predict KalmanFilter.new ⟨x0, P0⟩ 0).P *
        KalmanFilter.new.H.transpose + KalmanFilter.new.R) ≠ 0) :
    (kalman_predict KalmanFilter.new ⟨x0, P0⟩ 0).x 0 =
      x0 0 + get_cycle_duration_f64 IMU_FREQ * x0 3 ∧
    (kalman_predict KalmanFilter.new ⟨x0, P0⟩ 0).x 1 =
      x0 1 + get_cycle_duration_f64 IMU_FREQ * x0 4 ∧
    (kalman_predict KalmanFilter.new ⟨x0, P0⟩ 0).x 2 =
      x0 2 + get_cycle_duration_f64 IMU_FREQ * x0 5 ∧
    (kalman_predict KalmanFilter.new ⟨x0, P0⟩ 0).x 3 = x0 3 ∧
    (kalman_predict KalmanFilter.new ⟨x0, P0⟩ 0).x 4 = x0 4 ∧
    (kalman_predict KalmanFilter.new ⟨x0, P0⟩ 0).x 5 = x0 5 ∧
    KalmanFilter.new.H *ᵥ (kalman_predict KalmanFilter.new ⟨x0, P0⟩ 0).x -
      KalmanFilter.new.H *ᵥ (kalman_predict KalmanFilter.new ⟨x0, P0⟩ 0).x
      = 0 ∧
    ∃ s2, kalman_correct KalmanFilter.new
        (kalman_predict KalmanFilter.new ⟨x0, P0⟩ 0)
        (KalmanFilter.new.H *ᵥ (kalman_predict KalmanFilter.new ⟨x0, P0⟩ 0).x)
        = some s2 ∧
      s2.x = (kalman_predict KalmanFilter.new ⟨x0, P0⟩ 0).x := by
  have hx : (kalman_predict KalmanFilter.new ⟨x0, P0⟩ 0).x =
      KalmanFilter.new.A *ᵥ x0 := by
    simp [kalman_predict, Matrix.mulVec_zero]
  refine ⟨?_, ?_, ?_, ?_, ?_, ?_, sub_self _, ?_⟩
  · rw [hx, Matrix.mulVec, Matrix.dotProduct, Fin.sum_univ_six]
    norm_num [show KalmanFilter.new.A 0 0 = 1 from rfl,
      show KalmanFilter.new.A 0 1 = 0 from rfl,
      show KalmanFilter.new.A 0 2 = 0 from rfl,
      show KalmanFilter.new.A 0 3 = get_cycle_duration_f64 IMU_FREQ from rfl,
      show KalmanFilter.new.A 0 4 = 0 from rfl,
      show KalmanFilter.new.A 0 5 = 0 from rfl]
  · rw [hx, Matrix.mulVec, Matrix.dotProduct, Fin.sum_univ_six]
    norm_num [show KalmanFilter.new.A 1 0 = 0 from rfl,
      show KalmanFilter.new.A 1 1 = 1 from rfl,
      show KalmanFilter.new.A 1 2 = 0 from rfl,
      show KalmanFilter.new.A 1 3 = 0 from rfl,
      show KalmanFilter.new.A 1 4 = get_cycle_duration_f64 IMU_FREQ from rfl,
      show KalmanFilter.new.A 1 5 = 0 from rfl]
  · rw [hx, Matrix.mulVec, Matrix.dotProduct, Fin.sum_univ_six]
    norm_num [show KalmanFilter.new.A 2 0 = 0 from rfl,
      show KalmanFilter.new.A 2 1 = 0 from rfl,
      show KalmanFilter.new.A 2 2 = 1 from rfl,
      show KalmanFilter.new.A 2 3 = 0 from rfl,
      show KalmanFilter.new.A 2 4 = 0 from rfl,
      show KalmanFilter.new.A 2 5 = get_cycle_duration_f64 IMU_FREQ from rfl]
  · rw [hx, Matrix.mulVec, Matrix.dotProduct, Fin.sum_univ_six]
    norm_num [show KalmanFilter.new.A 3 0 = 0 from rfl,
      show KalmanFilter.new.A 3 1 = 0 from rfl,
      show KalmanFilter.new.A 3 2 = 0 from rfl,
      show KalmanFilter.new.A 3 3 = 1 from rfl,
      show KalmanFilter.new.A 3 4 = 0 from rfl,
      show KalmanFilter.new.A 3 5 = 0 from rfl]
  · rw [hx, Matrix.mulVec, Matrix.dotProduct, Fin.sum_univ_six]
    norm_num [show KalmanFilter.new.A 4 0 = 0 from rfl,
      show KalmanFilter.new.A 4 1 = 0 from rfl,
      show KalmanFilter.new.A 4 2 = 0 from rfl,
      show KalmanFilter.new.A 4 3 = 0 from rfl,
      show KalmanFilter.new.A 4 4 = 1 from rfl,
      show KalmanFilter.new.A 4 5 = 0 from rfl]
  · rw [hx, Matrix.mulVec, Matrix.dotProduct, Fin.sum_univ_six]
    norm_num [show KalmanFilter.new.A 5 0 = 0 from rfl,
      show KalmanFilter.new.A 5 1 = 0 from rfl,
      show KalmanFilter.new.A 5 2 = 0 from rfl,
      show KalmanFilter.new.A 5 3 = 0 from rfl,
      show KalmanFilter.new.A 5 4 = 0 from rfl,
      show KalmanFilter.new.A 5 5 = 1 from rfl]
  · simp only [kalman_correct, try_inverse, if_neg h]
    exact ⟨_, rfl, by simp⟩

/-- Helper: sixth entry of a six-entry vector literal. -/
theorem vec6_four {α : Type} (a b c d e f : α) : ![a, b, c, d, e, f] 4 = e :=
  rfl

/-- Helper: last entry of a six-entry vector literal. -/
theorem vec6_five {α : Type} (a b c d e f : α) : ![a, b, c, d, e, f] 5 = f :=
  rfl

/-- Helper: last entry of a three-entry vector literal. -/
theorem vec3_two {α : Type} (a b c : α) : ![a, b, c] 2 = c :=
  rfl

set_option maxHeartbeats 1000000 in
/-- Claim C1, witness: bootstrapped state `(1,1,1,1,1,1)` and covariance
`0`; the zero-acceleration prediction advances the first position
component by the nominal period and keeps the velocity, and the
correction at the predicted position returns a state with the same mean
(the innovation-covariance determinant is nonzero, so the inversion
succeeds). -/
theorem kalman_round_trip_witness :
    (kalman_predict KalmanFilter.new ⟨![1, 1, 1, 1, 1, 1], 0⟩ 0).x 0 =
      1 + get_cycle_duration_f64 IMU_FREQ * 1 ∧
    (kalman_predict KalmanFilter.new ⟨![1, 1, 1, 1, 1, 1], 0⟩ 0).x 3 = 1 ∧
    ∃ s2, kalman_correct KalmanFilter.new
        (kalman_predict KalmanFilter.new ⟨![1, 1, 1, 1, 1, 1], 0⟩ 0)
        (KalmanFilter.new.H *ᵥ
          (kalman_predict KalmanFilter.new ⟨![1, 1, 1, 1, 1, 1], 0⟩ 0).x)
        = some s2 ∧
      s2.x = (kalman_predict KalmanFilter.new ⟨![1, 1, 1, 1, 1, 1], 0⟩ 0).x := by
  have hP : (kalman_predict KalmanFilter.new ⟨![1, 1, 1, 1, 1, 1], 0⟩ 0).P =
      KalmanFilter.new.Q := by
    simp [kalman_predict]
  have hS : create_matrix_H *
      create_matrix_Q (get_cycle_duration_f64 IMU_FREQ) KALMAN_ACC_SIGMA *
      create_matrix_H.transpose + create_matrix_R KALMAN_GPS_SIGMA =
      !![6400001 / 640000, 0, 0;
         0, 6400001 / 640000, 0;
         0, 0, 6400001 / 640000] := by
    funext i j
    fin_cases i <;> fin_cases j <;>
      norm_num [Matrix.mul_apply, Matrix.add_apply, Matrix.transpose_apply,
        Fin.sum_univ_six, create_matrix_H, create_matrix_Q,
        create_matrix_R, get_cycle_duration_f64, IMU_FREQ, KALMAN_ACC_SIGMA,
        KALMAN_GPS_SIGMA, Matrix.smul_apply, Matrix.one_apply, smul_eq_mul,
        vec6_four, vec6_five, vec3_two, Matrix.vecHead, Matrix.vecTail,
        Function.comp, Fin.ext_iff]
  have hdet : det3 (KalmanFilter.new.H *
      (kalman_predict KalmanFilter.new ⟨![1, 1, 1, 1, 1, 1], 0⟩ 0).P *
      KalmanFilter.new.H.transpose + KalmanFilter.new.R) ≠ 0 := by
    rw [hP, show KalmanFilter.new.H = create_matrix_H from rfl,
      show KalmanFilter.new.Q =
        create_matrix_Q (get_cycle_duration_f64 IMU_FREQ) KALMAN_ACC_SIGMA
        from rfl,
      show KalmanFilter.new.R = create_matrix_R KALMAN_GPS_SIGMA from rfl,
      hS]
    norm_num [det3]
  have h := kalman_round_trip ![1, 1, 1, 1, 1, 1] 0 hdet
  refine ⟨?_, ?_, h.2.2.2.2.2.2.2⟩
  · rw [h.1, show (![1, 1, 1, 1, 1, 1] : Fin 6 → ℚ) 0 = 1 from rfl,
      show (![1, 1, 1, 1, 1, 1] : Fin 6 → ℚ) 3 = 1 from rfl]
  · rw [h.2.2.2.1, show (![1, 1, 1, 1, 1, 1] : Fin 6 → ℚ) 3 = 1 from rfl]

end RustSDF
